import Mathlib

/-!
Verification of the DALI resource-lifecycle core:

* `OpticalFlowBuffer` (src/dali/operators/sequence/optical_flow/optical_flow_impl/
  optical_flow_buffer.h) — a wrapper owning one GPU buffer obtained through the
  NVIDIA optical-flow vendor function table.
* The NPP symbol resolver (src/dali/operators/util/npp_wrap.cc) — lazy, cached
  resolution of optional symbols from the `libnppc` / `libnppicc` shared libraries.

The vendor API (`NV_OF_*` types), `dlopen`/`dlsym`, and the process environment are
modelled as explicit parameters; the functions of the repository are transcribed
directly from the source.
-/

/-! ## Vendor API model (external interface consumed by optical_flow_buffer.h) -/

/-- Status code returned by the NV optical-flow vendor calls.  Only
`NV_OF_SUCCESS` is distinguished by the code under verification; every other
status is an opaque error code. -/
inductive NvOFStatus where
  | NV_OF_SUCCESS : NvOFStatus
  | NV_OF_ERR : Nat → NvOFStatus
deriving DecidableEq, Repr

/-- The buffer-type tag passed to `nvOFCreateGPUBufferCuda`; the constructor always
passes `NV_OF_CUDA_BUFFER_TYPE_CUDEVICEPTR`. -/
inductive NV_OF_CUDA_BUFFER_TYPE where
  | NV_OF_CUDA_BUFFER_TYPE_CUDEVICEPTR : NV_OF_CUDA_BUFFER_TYPE
deriving DecidableEq, Repr

/-- `NV_OF_BUFFER_DESCRIPTOR`: geometry and role of a vendor buffer.  `width` and
`height` are `uint32_t` fields, kept as naturals below `2^32` by the
`static_cast<uint32_t>` in `GenerateBufferDescriptor`; the format and usage enum
tags are opaque naturals. -/
structure NV_OF_BUFFER_DESCRIPTOR where
  width : Nat
  height : Nat
  bufferFormat : Nat
  bufferUsage : Nat
deriving DecidableEq, Repr

/-- One plane's strides from `NV_OF_CUDA_BUFFER_STRIDE_INFO` (bytes). -/
structure NV_OF_BUFFER_STRIDE where
  strideXInBytes : Nat
  strideYInBytes : Nat
deriving DecidableEq, Repr

/-- `NV_OF_CUDA_BUFFER_STRIDE_INFO`: per-plane strides; the wrapper consumes only
plane 0. -/
structure NV_OF_CUDA_BUFFER_STRIDE_INFO where
  strideInfo : Fin 2 → NV_OF_BUFFER_STRIDE
  numPlanes : Nat

/-- The vendor function table (`NV_OF_CUDA_API_FUNCTION_LIST`), value-copied into
each `OpticalFlowBuffer`.  Each entry models the corresponding vendor call as a
pure function of its arguments: `nvOFCreateGPUBufferCuda` yields the status and
the handle written through its out-parameter; `nvOFGPUBufferGetCUdeviceptr`
returns the device pointer (an integer, `0` = null); `nvOFGPUBufferGetStrideInfo`
yields a status and the stride record; `nvOFDestroyGPUBufferCuda` returns a
status. -/
structure NV_OF_CUDA_API_FUNCTION_LIST where
  nvOFCreateGPUBufferCuda :
    Nat → NV_OF_BUFFER_DESCRIPTOR → NV_OF_CUDA_BUFFER_TYPE → NvOFStatus × Nat
  nvOFGPUBufferGetCUdeviceptr : Nat → Nat
  nvOFGPUBufferGetStrideInfo : Nat → NvOFStatus × NV_OF_CUDA_BUFFER_STRIDE_INFO
  nvOFDestroyGPUBufferCuda : Nat → NvOFStatus

/-- The vendor calls a construction or destruction can issue, recorded as a trace
so call-count claims (exactly one release, no destroy on a failed construction)
are statable. -/
inductive VendorCall where
  | create : VendorCall
  | getPtr : VendorCall
  | getStrideInfo : VendorCall
  | destroy : VendorCall
deriving DecidableEq, Repr

/-- Errors a construction can raise.  `cudaError` models a `CUDA_CALL` macro
failure and `enforceError` a `DALI_ENFORCE` failure.  Modelled from the spec:
`CUDA_CALL` and `DALI_ENFORCE` live in `dali/core/error_handling.h`, which is not
among the shown sources; per the spec both "fail with an unrecoverable-resource
error" (an exception) when the status is not success, resp. the condition is
false. -/
inductive ConstructError where
  | cudaError : NvOFStatus → ConstructError
  | enforceError : String → ConstructError
deriving DecidableEq, Repr

/-! ## OpticalFlowBuffer -/

/-- The fields of a live `OpticalFlowBuffer`
(optical_flow_buffer.h lines 105–109). -/
structure OpticalFlowBuffer where
  of_inst_ : NV_OF_CUDA_API_FUNCTION_LIST
  descriptor_ : NV_OF_BUFFER_DESCRIPTOR
  handle_ : Nat
  ptr_ : Nat
  stride_ : NV_OF_BUFFER_STRIDE

/-- `OpticalFlowBuffer::GenerateBufferDescriptor` (lines 93–102): builds the
descriptor from width, height, format and usage; `static_cast<uint32_t>` narrows
the `size_t` dimensions modulo `2^32`. -/
def GenerateBufferDescriptor (width height format usage : Nat) :
    NV_OF_BUFFER_DESCRIPTOR :=
  { width := width % 2 ^ 32
    height := height % 2 ^ 32
    bufferFormat := format
    bufferUsage := usage }

/-- `OpticalFlowBuffer::OpticalFlowBuffer` (lines 32–48), with the trace of vendor
calls it issued.  The member-initializer list copies the function table and builds
the descriptor; the body then (1) creates the GPU buffer under `CUDA_CALL`
(failure throws), (2) reads the device pointer and enforces it non-zero
(`DALI_ENFORCE(ptr_ != 0, "Invalid pointer")`), (3) queries stride info under
`CUDA_CALL` and records plane 0's strides. -/
def constructOpticalFlowBuffer (of_handle width height : Nat)
    (function_list : NV_OF_CUDA_API_FUNCTION_LIST) (usage format : Nat) :
    Except ConstructError OpticalFlowBuffer × List VendorCall :=
  let descriptor := GenerateBufferDescriptor width height format usage
  let createRes := function_list.nvOFCreateGPUBufferCuda of_handle descriptor
      NV_OF_CUDA_BUFFER_TYPE.NV_OF_CUDA_BUFFER_TYPE_CUDEVICEPTR
  if createRes.1 = NvOFStatus.NV_OF_SUCCESS then
    let handle := createRes.2
    let ptr := function_list.nvOFGPUBufferGetCUdeviceptr handle
    if ptr = 0 then
      (Except.error (ConstructError.enforceError "Invalid pointer"),
       [VendorCall.create, VendorCall.getPtr])
    else
      let strideRes := function_list.nvOFGPUBufferGetStrideInfo handle
      if strideRes.1 = NvOFStatus.NV_OF_SUCCESS then
        (Except.ok
          { of_inst_ := function_list
            descriptor_ := descriptor
            handle_ := handle
            ptr_ := ptr
            stride_ :=
              { strideXInBytes := (strideRes.2.strideInfo 0).strideXInBytes
                strideYInBytes := (strideRes.2.strideInfo 0).strideYInBytes } },
         [VendorCall.create, VendorCall.getPtr, VendorCall.getStrideInfo])
      else
        (Except.error (ConstructError.cudaError strideRes.1),
         [VendorCall.create, VendorCall.getPtr, VendorCall.getStrideInfo])
  else
    (Except.error (ConstructError.cudaError createRes.1), [VendorCall.create])

/-- Outcome of running the destructor: it either returns normally or terminates
the process (`std::terminate()`); no error value or exception can leave it. -/
inductive DtorOutcome where
  | normalReturn : DtorOutcome
  | processTerminated : DtorOutcome
deriving DecidableEq, Repr

/-- `OpticalFlowBuffer::~OpticalFlowBuffer` (lines 56–64): one
`nvOFDestroyGPUBufferCuda` call; any status other than `NV_OF_SUCCESS` leads to
`std::terminate()`. -/
def destructOpticalFlowBuffer (b : OpticalFlowBuffer) :
    DtorOutcome × List VendorCall :=
  let err := b.of_inst_.nvOFDestroyGPUBufferCuda b.handle_
  if err ≠ NvOFStatus.NV_OF_SUCCESS then
    (DtorOutcome.processTerminated, [VendorCall.destroy])
  else
    (DtorOutcome.normalReturn, [VendorCall.destroy])

/-- `GetDescriptor` (lines 67–69): returns the stored descriptor.  The result is
the returned value together with the (unchanged) receiver and the (empty) list of
vendor calls the method body performs, so purity is statable. -/
def OpticalFlowBuffer.GetDescriptor (b : OpticalFlowBuffer) :
    NV_OF_BUFFER_DESCRIPTOR × OpticalFlowBuffer × List VendorCall :=
  (b.descriptor_, b, [])

/-- `GetHandle` (lines 72–74). -/
def OpticalFlowBuffer.GetHandle (b : OpticalFlowBuffer) :
    Nat × OpticalFlowBuffer × List VendorCall :=
  (b.handle_, b, [])

/-- `GetPtr` (lines 77–79). -/
def OpticalFlowBuffer.GetPtr (b : OpticalFlowBuffer) :
    Nat × OpticalFlowBuffer × List VendorCall :=
  (b.ptr_, b, [])

/-- `GetStride` (lines 87–89). -/
def OpticalFlowBuffer.GetStride (b : OpticalFlowBuffer) :
    NV_OF_BUFFER_STRIDE × OpticalFlowBuffer × List VendorCall :=
  (b.stride_, b, [])

/-- Names of the four accessors, for stating facts about arbitrary accessor
sequences. -/
inductive AccessorCall where
  | getDescriptor : AccessorCall
  | getHandle : AccessorCall
  | getPtr : AccessorCall
  | getStride : AccessorCall
deriving DecidableEq, Repr

/-- The receiver and vendor-call trace an accessor leaves behind. -/
def accessorStep (b : OpticalFlowBuffer) :
    AccessorCall → OpticalFlowBuffer × List VendorCall
  | AccessorCall.getDescriptor => (b.GetDescriptor.2.1, b.GetDescriptor.2.2)
  | AccessorCall.getHandle => (b.GetHandle.2.1, b.GetHandle.2.2)
  | AccessorCall.getPtr => (b.GetPtr.2.1, b.GetPtr.2.2)
  | AccessorCall.getStride => (b.GetStride.2.1, b.GetStride.2.2)

/-- Running a sequence of accessor calls on a live buffer: the final receiver
state and the concatenated vendor-call trace. -/
def runAccessors : OpticalFlowBuffer → List AccessorCall →
    OpticalFlowBuffer × List VendorCall
  | b, [] => (b, [])
  | b, a :: rest =>
    let step := accessorStep b a
    let tail := runAccessors step.1 rest
    (tail.1, step.2 ++ tail.2)

/-! ## NPP symbol resolver (src/dali/operators/util/npp_wrap.cc)

The dynamic-loader primitives `dlopen` and `dlsym` are the external interface:
they are modelled as an explicit environment.  Library handles and symbol
addresses are naturals; `none` models a NULL return.  The `CUDA_VERSION`
preprocessor constant selects the versioned library file names at build time and
is kept as an explicit parameter. -/

/-- The dynamic-loader environment: `dlopen` maps a file name to a handle or
NULL, `dlsym` maps a (handle, symbol-name) pair to an address or NULL. -/
structure DlEnv where
  dlopen : String → Option Nat
  dlsym : Nat → String → Option Nat

/-- `__NppcLibName` (npp_wrap.cc line 28). -/
def NppcLibName : String := "libnppc.so"

/-- `__NppiccLibName` (line 29). -/
def NppiccLibName : String := "libnppicc.so"

/-- `__NppcLibNameCuVer` (lines 30–36): the CUDA-major-version-qualified name,
chosen by the `CUDA_VERSION >= 11000` preprocessor test. -/
def NppcLibNameCuVer (cudaVersion : Nat) : String :=
  if 11000 ≤ cudaVersion then "libnppc.so.11" else "libnppc.so.10"

/-- `__NppiccLibNameCuVer` (lines 30–36). -/
def NppiccLibNameCuVer (cudaVersion : Nat) : String :=
  if 11000 ≤ cudaVersion then "libnppicc.so.11" else "libnppicc.so.10"

/-- The error message thrown when neither name of `libnppc.so` opens
(lines 45–46). -/
def nppcLoadErrorMsg : String :=
  "dlopen libnppc.so failed!. Please install CUDA toolkit or NPP python wheel."

/-- The error message thrown when neither name of `libnppicc.so` opens
(lines 59–60). -/
def nppiccLoadErrorMsg : String :=
  "dlopen libnppicc.so failed!. Please install CUDA toolkit or NPP python wheel."

/-- `loadNppcLibrary` (lines 38–50): `dlopen` the versioned name; on NULL fall
back to the unqualified name; if that is NULL too, throw `std::runtime_error`
with `nppcLoadErrorMsg`. -/
def loadNppcLibrary (env : DlEnv) (cudaVersion : Nat) : Except String Nat :=
  match env.dlopen (NppcLibNameCuVer cudaVersion) with
  | some ret => Except.ok ret
  | none =>
    match env.dlopen NppcLibName with
    | some ret => Except.ok ret
    | none => Except.error nppcLoadErrorMsg

/-- `loadNppiccLibrary` (lines 52–64). -/
def loadNppiccLibrary (env : DlEnv) (cudaVersion : Nat) : Except String Nat :=
  match env.dlopen (NppiccLibNameCuVer cudaVersion) with
  | some ret => Except.ok ret
  | none =>
    match env.dlopen NppiccLibName with
    | some ret => Except.ok ret
    | none => Except.error nppiccLoadErrorMsg

/-- `NppLoadSymbol` (lines 70–79): the two library handles are function-local
statics initialised (once) by the load functions — a load failure propagates as
the exception.  The symbol is looked up in `libnppicc` (the processing library)
first and in `libnppc` (the core library) only when that lookup returned NULL.
In the source both handles are non-NULL whenever the lookups run, since a failed
load throws before either `dlsym`; the C ternary guards are therefore always in
their non-NULL branch. -/
def NppLoadSymbol (env : DlEnv) (cudaVersion : Nat) (name : String) :
    Except String (Option Nat) :=
  match loadNppcLibrary env cudaVersion with
  | Except.error e => Except.error e
  | Except.ok nppcDrvLib =>
    match loadNppiccLibrary env cudaVersion with
    | Except.error e => Except.error e
    | Except.ok nppiccDrvLib =>
      match env.dlsym nppiccDrvLib name with
      | some ret => Except.ok (some ret)
      | none => Except.ok (env.dlsym nppcDrvLib name)

/-- Association-list lookup standing in for `symbol_map.find(name)` on the
`std::unordered_map<std::string, void*>`: `none` = no entry, `some v` = an entry
whose mapped pointer is `v` (itself `none` when the stored pointer is NULL). -/
def symbolMapFind (name : String) :
    List (String × Option Nat) → Option (Option Nat)
  | [] => none
  | (k, v) :: rest => if k = name then some v else symbolMapFind name rest

/-- The process-wide `symbol_map` static of `nppIsSymbolAvailable`
(npp_wrap.cc line 83). -/
structure SymbolCache where
  symbol_map : List (String × Option Nat)
deriving DecidableEq, Repr

/-- `nppIsSymbolAvailable` (lines 81–92) as a state transition on the cache.  The
`std::lock_guard` serialises the whole body (find, resolve, insert), so one call
is one atomic step.  The result carries the returned boolean, the cache after
the call, and how many times `NppLoadSymbol` ran during the call (0 on a cache
hit, 1 on a miss); a load failure inside `NppLoadSymbol` propagates as the
exception. -/
def nppIsSymbolAvailable (env : DlEnv) (cudaVersion : Nat) (cache : SymbolCache)
    (name : String) : Except String (Bool × SymbolCache × Nat) :=
  match symbolMapFind name cache.symbol_map with
  | some ptr => Except.ok (ptr.isSome, cache, 0)
  | none =>
    match NppLoadSymbol env cudaVersion name with
    | Except.error e => Except.error e
    | Except.ok ptr =>
      Except.ok (ptr.isSome, ⟨(name, ptr) :: cache.symbol_map⟩, 1)

/-- A sequence of `nppIsSymbolAvailable` calls, threaded through the cache: the
list of booleans the calls return, the final cache, and the total number of
`NppLoadSymbol` invocations.  The mutex in the source serialises concurrent
calls, so any concurrent execution of N calls is one such sequence. -/
def isAvailableRun (env : DlEnv) (cudaVersion : Nat) :
    SymbolCache → List String → Except String (List Bool × SymbolCache × Nat)
  | cache, [] => Except.ok ([], cache, 0)
  | cache, name :: rest =>
    match nppIsSymbolAvailable env cudaVersion cache name with
    | Except.error e => Except.error e
    | Except.ok (b, c, k) =>
      match isAvailableRun env cudaVersion c rest with
      | Except.error e => Except.error e
      | Except.ok (bs, c2, k2) => Except.ok (b :: bs, c2, k + k2)

/-! ## Sample instances (used by witness theorems) -/

/-- A concrete stride record for witnesses. -/
def sampleStrideInfo : NV_OF_CUDA_BUFFER_STRIDE_INFO :=
  { strideInfo := fun _ => { strideXInBytes := 1280, strideYInBytes := 720 }
    numPlanes := 1 }

/-- A concrete vendor function table whose destroy call returns the given
status. -/
def sampleFL (destroySt : NvOFStatus) : NV_OF_CUDA_API_FUNCTION_LIST :=
  { nvOFCreateGPUBufferCuda := fun _ _ _ => (NvOFStatus.NV_OF_SUCCESS, 7)
    nvOFGPUBufferGetCUdeviceptr := fun h => h + 100
    nvOFGPUBufferGetStrideInfo := fun _ => (NvOFStatus.NV_OF_SUCCESS, sampleStrideInfo)
    nvOFDestroyGPUBufferCuda := fun _ => destroySt }

/-- The buffer `constructOpticalFlowBuffer 1 640 480 (sampleFL …) 2 3`
produces. -/
def sampleOkBuffer (destroySt : NvOFStatus) : OpticalFlowBuffer :=
  { of_inst_ := sampleFL destroySt
    descriptor_ := GenerateBufferDescriptor 640 480 3 2
    handle_ := 7
    ptr_ := 107
    stride_ := { strideXInBytes := 1280, strideYInBytes := 720 } }

/-- A vendor table whose create call succeeds but whose returned handle yields a
NULL device pointer. -/
def sampleFLNullPtr : NV_OF_CUDA_API_FUNCTION_LIST :=
  { nvOFCreateGPUBufferCuda := fun _ _ _ => (NvOFStatus.NV_OF_SUCCESS, 7)
    nvOFGPUBufferGetCUdeviceptr := fun _ => 0
    nvOFGPUBufferGetStrideInfo := fun _ => (NvOFStatus.NV_OF_SUCCESS, sampleStrideInfo)
    nvOFDestroyGPUBufferCuda := fun _ => NvOFStatus.NV_OF_SUCCESS }

/-! ## Claims about OpticalFlowBuffer -/

/-- C1: destruction of any `OpticalFlowBuffer` attempts exactly one release call
(`nvOFDestroyGPUBufferCuda`) through the vendor function table; a status other
than `NV_OF_SUCCESS` terminates the process (the failure is never surfaced as a
return value or exception — `DtorOutcome` has no error alternative), and on
`NV_OF_SUCCESS` the destructor returns normally. -/
theorem destructor_attempts_one_release (b : OpticalFlowBuffer) :
    (destructOpticalFlowBuffer b).2 = [VendorCall.destroy] ∧
    (b.of_inst_.nvOFDestroyGPUBufferCuda b.handle_ ≠ NvOFStatus.NV_OF_SUCCESS →
      (destructOpticalFlowBuffer b).1 = DtorOutcome.processTerminated) ∧
    (b.of_inst_.nvOFDestroyGPUBufferCuda b.handle_ = NvOFStatus.NV_OF_SUCCESS →
      (destructOpticalFlowBuffer b).1 = DtorOutcome.normalReturn) := by
  unfold destructOpticalFlowBuffer
  by_cases h : b.of_inst_.nvOFDestroyGPUBufferCuda b.handle_ = NvOFStatus.NV_OF_SUCCESS <;>
    simp [h]

/-- Witness for C1 at concrete buffers: a failing destroy status terminates, a
succeeding one returns normally, and each issues the single destroy call. -/
theorem destructor_attempts_one_release_witness :
    (destructOpticalFlowBuffer (sampleOkBuffer (NvOFStatus.NV_OF_ERR 3))).1 =
        DtorOutcome.processTerminated ∧
    (destructOpticalFlowBuffer (sampleOkBuffer NvOFStatus.NV_OF_SUCCESS)).1 =
        DtorOutcome.normalReturn ∧
    (destructOpticalFlowBuffer (sampleOkBuffer NvOFStatus.NV_OF_SUCCESS)).2 =
        [VendorCall.destroy] :=
  ⟨(destructor_attempts_one_release (sampleOkBuffer (NvOFStatus.NV_OF_ERR 3))).2.1
      (by decide),
   (destructor_attempts_one_release (sampleOkBuffer NvOFStatus.NV_OF_SUCCESS)).2.2
      (by decide),
   (destructor_attempts_one_release (sampleOkBuffer NvOFStatus.NV_OF_SUCCESS)).1⟩

/-- C2: when the vendor create call succeeds but the retrieved device pointer is
zero, construction fails with the unrecoverable-resource (`DALI_ENFORCE`) error
"Invalid pointer", no buffer is ever produced, and the vendor-call trace contains
no destroy call. -/
theorem null_ptr_fails_without_destroy (of_handle width height : Nat)
    (fl : NV_OF_CUDA_API_FUNCTION_LIST) (usage format : Nat)
    (hcreate : (fl.nvOFCreateGPUBufferCuda of_handle
        (GenerateBufferDescriptor width height format usage)
        NV_OF_CUDA_BUFFER_TYPE.NV_OF_CUDA_BUFFER_TYPE_CUDEVICEPTR).1 =
        NvOFStatus.NV_OF_SUCCESS)
    (hptr : fl.nvOFGPUBufferGetCUdeviceptr
        (fl.nvOFCreateGPUBufferCuda of_handle
          (GenerateBufferDescriptor width height format usage)
          NV_OF_CUDA_BUFFER_TYPE.NV_OF_CUDA_BUFFER_TYPE_CUDEVICEPTR).2 = 0) :
    constructOpticalFlowBuffer of_handle width height fl usage format =
      (Except.error (ConstructError.enforceError "Invalid pointer"),
       [VendorCall.create, VendorCall.getPtr]) ∧
    VendorCall.destroy ∉
      (constructOpticalFlowBuffer of_handle width height fl usage format).2 ∧
    ∀ b tr, constructOpticalFlowBuffer of_handle width height fl usage format ≠
      (Except.ok b, tr) := by
  have hmain : constructOpticalFlowBuffer of_handle width height fl usage format =
      (Except.error (ConstructError.enforceError "Invalid pointer"),
       [VendorCall.create, VendorCall.getPtr]) := by
    unfold constructOpticalFlowBuffer
    simp [hcreate, hptr]
  refine ⟨hmain, ?_, ?_⟩
  · rw [hmain]
    decide
  · intro b tr hcontra
    rw [hmain] at hcontra
    simp at hcontra

/-- Witness for C2: a concrete table returning a NULL device pointer after a
successful create. -/
theorem null_ptr_fails_without_destroy_witness :
    constructOpticalFlowBuffer 1 640 480 sampleFLNullPtr 2 3 =
      (Except.error (ConstructError.enforceError "Invalid pointer"),
       [VendorCall.create, VendorCall.getPtr]) ∧
    VendorCall.destroy ∉ (constructOpticalFlowBuffer 1 640 480 sampleFLNullPtr 2 3).2 :=
  ⟨(null_ptr_fails_without_destroy 1 640 480 sampleFLNullPtr 2 3 rfl rfl).1,
   (null_ptr_fails_without_destroy 1 640 480 sampleFLNullPtr 2 3 rfl rfl).2.1⟩

/-- C9: `GenerateBufferDescriptor` narrows the `size_t` dimensions to `uint32_t`
with no range check: the descriptor records `width % 2^32` and `height % 2^32`,
so the stored dimension equals the input exactly when the input is below
`2^32`, and any input `≥ 2^32` is silently wrapped. -/
theorem descriptor_narrows_mod_2_32 (width height format usage : Nat) :
    (GenerateBufferDescriptor width height format usage).width = width % 2 ^ 32 ∧
    (GenerateBufferDescriptor width height format usage).height = height % 2 ^ 32 ∧
    ((GenerateBufferDescriptor width height format usage).width = width ↔
      width < 2 ^ 32) ∧
    ((GenerateBufferDescriptor width height format usage).height = height ↔
      height < 2 ^ 32) := by
  refine ⟨rfl, rfl, ?_, ?_⟩ <;>
    simp only [GenerateBufferDescriptor] <;>
    omega

/-- C10: the four accessors of a live buffer are pure observers: each returns the
corresponding field fixed at construction, leaves the receiver unchanged, and
issues no vendor call; consequently an arbitrary sequence of accessor calls
leaves the buffer unchanged and produces an empty vendor-call trace. -/
theorem accessors_pure_observers (b : OpticalFlowBuffer)
    (calls : List AccessorCall) :
    runAccessors b calls = (b, []) ∧
    b.GetDescriptor = (b.descriptor_, b, []) ∧
    b.GetHandle = (b.handle_, b, []) ∧
    b.GetPtr = (b.ptr_, b, []) ∧
    b.GetStride = (b.stride_, b, []) := by
  refine ⟨?_, rfl, rfl, rfl, rfl⟩
  induction calls with
  | nil => rfl
  | cons a rest ih =>
    cases a <;>
      simp [runAccessors, accessorStep, OpticalFlowBuffer.GetDescriptor,
        OpticalFlowBuffer.GetHandle, OpticalFlowBuffer.GetPtr,
        OpticalFlowBuffer.GetStride, ih]

/-- Shared helper: a successful construction fixes every field of the buffer from
the vendor calls on the descriptor built from the inputs. -/
theorem construct_ok_fields (of_handle width height : Nat)
    (fl : NV_OF_CUDA_API_FUNCTION_LIST) (usage format : Nat)
    (b : OpticalFlowBuffer) (tr : List VendorCall)
    (h : constructOpticalFlowBuffer of_handle width height fl usage format =
      (Except.ok b, tr)) :
    b.of_inst_ = fl ∧
    b.descriptor_ = GenerateBufferDescriptor width height format usage ∧
    b.handle_ = (fl.nvOFCreateGPUBufferCuda of_handle
        (GenerateBufferDescriptor width height format usage)
        NV_OF_CUDA_BUFFER_TYPE.NV_OF_CUDA_BUFFER_TYPE_CUDEVICEPTR).2 ∧
    b.ptr_ = fl.nvOFGPUBufferGetCUdeviceptr b.handle_ ∧
    b.stride_ =
      { strideXInBytes :=
          ((fl.nvOFGPUBufferGetStrideInfo b.handle_).2.strideInfo 0).strideXInBytes
        strideYInBytes :=
          ((fl.nvOFGPUBufferGetStrideInfo b.handle_).2.strideInfo 0).strideYInBytes } ∧
    tr = [VendorCall.create, VendorCall.getPtr, VendorCall.getStrideInfo] := by
  simp only [constructOpticalFlowBuffer] at h
  split_ifs at h with h1 h2 h3 <;> simp at h
  obtain ⟨hb, htr⟩ := h
  subst hb
  subst htr
  exact ⟨rfl, rfl, rfl, rfl, rfl, rfl⟩

/-- C7: for every successfully constructed buffer, the stride pair is exactly
plane 0's `strideXInBytes` and `strideYInBytes` as reported by the vendor
stride-info call on the buffer's handle, and `GetStride` returns that stored
pair verbatim without touching the buffer or the vendor. -/
theorem stride_equals_plane0_strides (of_handle width height : Nat)
    (fl : NV_OF_CUDA_API_FUNCTION_LIST) (usage format : Nat)
    (b : OpticalFlowBuffer) (tr : List VendorCall)
    (h : constructOpticalFlowBuffer of_handle width height fl usage format =
      (Except.ok b, tr)) :
    b.stride_.strideXInBytes =
      ((fl.nvOFGPUBufferGetStrideInfo b.handle_).2.strideInfo 0).strideXInBytes ∧
    b.stride_.strideYInBytes =
      ((fl.nvOFGPUBufferGetStrideInfo b.handle_).2.strideInfo 0).strideYInBytes ∧
    b.GetStride = (b.stride_, b, []) := by
  obtain ⟨-, -, -, -, hs, -⟩ :=
    construct_ok_fields of_handle width height fl usage format b tr h
  exact ⟨by rw [hs], by rw [hs], rfl⟩

/-- Witness for C7 at a concrete vendor table. -/
theorem stride_equals_plane0_strides_witness :
    (sampleOkBuffer NvOFStatus.NV_OF_SUCCESS).stride_.strideXInBytes =
      (((sampleFL NvOFStatus.NV_OF_SUCCESS).nvOFGPUBufferGetStrideInfo
          (sampleOkBuffer NvOFStatus.NV_OF_SUCCESS).handle_).2.strideInfo
        0).strideXInBytes ∧
    (sampleOkBuffer NvOFStatus.NV_OF_SUCCESS).stride_.strideYInBytes =
      (((sampleFL NvOFStatus.NV_OF_SUCCESS).nvOFGPUBufferGetStrideInfo
          (sampleOkBuffer NvOFStatus.NV_OF_SUCCESS).handle_).2.strideInfo
        0).strideYInBytes :=
  ⟨(stride_equals_plane0_strides 1 640 480 (sampleFL NvOFStatus.NV_OF_SUCCESS) 2 3
      (sampleOkBuffer NvOFStatus.NV_OF_SUCCESS)
      [VendorCall.create, VendorCall.getPtr, VendorCall.getStrideInfo] rfl).1,
   (stride_equals_plane0_strides 1 640 480 (sampleFL NvOFStatus.NV_OF_SUCCESS) 2 3
      (sampleOkBuffer NvOFStatus.NV_OF_SUCCESS)
      [VendorCall.create, VendorCall.getPtr, VendorCall.getStrideInfo] rfl).2.1⟩

/-- C8: the stored descriptor is a pure function of exactly (width, height,
format, usage) — two successful constructions sharing those four inputs, however
much the session handle or vendor table differ, store equal descriptors equal to
`GenerateBufferDescriptor width height format usage` — and `GetDescriptor`
returns the stored value verbatim, changing nothing. -/
theorem descriptor_pure_and_verbatim (of_handle width height : Nat)
    (fl : NV_OF_CUDA_API_FUNCTION_LIST) (usage format of_handle2 : Nat)
    (fl2 : NV_OF_CUDA_API_FUNCTION_LIST) (b b2 : OpticalFlowBuffer)
    (tr tr2 : List VendorCall)
    (h1 : constructOpticalFlowBuffer of_handle width height fl usage format =
      (Except.ok b, tr))
    (h2 : constructOpticalFlowBuffer of_handle2 width height fl2 usage format =
      (Except.ok b2, tr2)) :
    b.descriptor_ = GenerateBufferDescriptor width height format usage ∧
    b2.descriptor_ = b.descriptor_ ∧
    b.GetDescriptor = (b.descriptor_, b, []) := by
  obtain ⟨-, hd1, -⟩ :=
    construct_ok_fields of_handle width height fl usage format b tr h1
  obtain ⟨-, hd2, -⟩ :=
    construct_ok_fields of_handle2 width height fl2 usage format b2 tr2 h2
  exact ⟨hd1, by rw [hd1, hd2], rfl⟩

/-- Witness for C8: two constructions with equal (width, height, format, usage)
but different session handles and vendor tables store the same descriptor. -/
theorem descriptor_pure_and_verbatim_witness :
    (sampleOkBuffer NvOFStatus.NV_OF_SUCCESS).descriptor_ =
      GenerateBufferDescriptor 640 480 3 2 ∧
    (sampleOkBuffer (NvOFStatus.NV_OF_ERR 9)).descriptor_ =
      (sampleOkBuffer NvOFStatus.NV_OF_SUCCESS).descriptor_ :=
  ⟨(descriptor_pure_and_verbatim 1 640 480 (sampleFL NvOFStatus.NV_OF_SUCCESS) 2 3
      5 (sampleFL (NvOFStatus.NV_OF_ERR 9))
      (sampleOkBuffer NvOFStatus.NV_OF_SUCCESS)
      (sampleOkBuffer (NvOFStatus.NV_OF_ERR 9))
      [VendorCall.create, VendorCall.getPtr, VendorCall.getStrideInfo]
      [VendorCall.create, VendorCall.getPtr, VendorCall.getStrideInfo]
      rfl rfl).1,
   (descriptor_pure_and_verbatim 1 640 480 (sampleFL NvOFStatus.NV_OF_SUCCESS) 2 3
      5 (sampleFL (NvOFStatus.NV_OF_ERR 9))
      (sampleOkBuffer NvOFStatus.NV_OF_SUCCESS)
      (sampleOkBuffer (NvOFStatus.NV_OF_ERR 9))
      [VendorCall.create, VendorCall.getPtr, VendorCall.getStrideInfo]
      [VendorCall.create, VendorCall.getPtr, VendorCall.getStrideInfo]
      rfl rfl).2.1⟩

/-! ## Sample loader environments (used by witness theorems) -/

/-- `dlopen` succeeds on the versioned core name and on the unqualified extension
name (so the extension library is found only through the fallback); every symbol
lookup returns NULL. -/
def sampleDlEnvA : DlEnv :=
  { dlopen := fun s =>
      if s = "libnppc.so.11" then some 1
      else if s = "libnppicc.so" then some 2
      else none
    dlsym := fun _ _ => none }

/-- `dlopen` fails on every name. -/
def sampleDlEnvNone : DlEnv :=
  { dlopen := fun _ => none
    dlsym := fun _ _ => none }

/-- Both versioned libraries open (core = handle 1, extension = handle 2);
"inBoth" resolves in both libraries at distinct addresses, "coreOnly" only in
the core library, everything else in neither. -/
def sampleDlEnvB : DlEnv :=
  { dlopen := fun s =>
      if s = "libnppc.so.11" then some 1
      else if s = "libnppicc.so.11" then some 2
      else none
    dlsym := fun h n =>
      if h = 2 ∧ n = "inBoth" then some 20
      else if h = 1 ∧ n = "inBoth" then some 10
      else if h = 1 ∧ n = "coreOnly" then some 11
      else none }

/-! ## Claims about the symbol resolver -/

/-- C3: each library is opened by trying the CUDA-major-version-qualified file
name first and the unqualified name second; when both opens fail the load throws
the error message naming the missing library; a symbol absent from successfully
loaded libraries is no error — `nppIsSymbolAvailable` returns `false` (with the
one resolution recorded) instead of throwing. -/
theorem library_load_fallback_and_absent_symbol (env : DlEnv) (cu : Nat) :
    (∀ h, env.dlopen (NppcLibNameCuVer cu) = some h →
      loadNppcLibrary env cu = Except.ok h) ∧
    (env.dlopen (NppcLibNameCuVer cu) = none → ∀ h,
      env.dlopen NppcLibName = some h → loadNppcLibrary env cu = Except.ok h) ∧
    (env.dlopen (NppcLibNameCuVer cu) = none → env.dlopen NppcLibName = none →
      loadNppcLibrary env cu = Except.error nppcLoadErrorMsg) ∧
    (∀ h, env.dlopen (NppiccLibNameCuVer cu) = some h →
      loadNppiccLibrary env cu = Except.ok h) ∧
    (env.dlopen (NppiccLibNameCuVer cu) = none → ∀ h,
      env.dlopen NppiccLibName = some h → loadNppiccLibrary env cu = Except.ok h) ∧
    (env.dlopen (NppiccLibNameCuVer cu) = none →
      env.dlopen NppiccLibName = none →
      loadNppiccLibrary env cu = Except.error nppiccLoadErrorMsg) ∧
    (∀ (name : String) (cache : SymbolCache) (hc hi : Nat),
      loadNppcLibrary env cu = Except.ok hc →
      loadNppiccLibrary env cu = Except.ok hi →
      env.dlsym hi name = none → env.dlsym hc name = none →
      symbolMapFind name cache.symbol_map = none →
      nppIsSymbolAvailable env cu cache name =
        Except.ok (false, ⟨(name, none) :: cache.symbol_map⟩, 1)) := by
  refine ⟨?_, ?_, ?_, ?_, ?_, ?_, ?_⟩
  · intro h hv
    simp [loadNppcLibrary, hv]
  · intro hv h hp
    simp [loadNppcLibrary, hv, hp]
  · intro hv hp
    simp [loadNppcLibrary, hv, hp]
  · intro h hv
    simp [loadNppiccLibrary, hv]
  · intro hv h hp
    simp [loadNppiccLibrary, hv, hp]
  · intro hv hp
    simp [loadNppiccLibrary, hv, hp]
  · intro name cache hc hi hlc hli hsi hsc hfind
    simp [nppIsSymbolAvailable, hfind, NppLoadSymbol, hlc, hli, hsi, hsc]

/-- Witness for C3: the versioned open, the unqualified fallback, the fatal
double failure of each library, and the non-throwing `false` for an absent
symbol, all at concrete loader environments. -/
theorem library_load_fallback_and_absent_symbol_witness :
    loadNppcLibrary sampleDlEnvA 11040 = Except.ok 1 ∧
    loadNppiccLibrary sampleDlEnvA 11040 = Except.ok 2 ∧
    loadNppcLibrary sampleDlEnvNone 11040 = Except.error nppcLoadErrorMsg ∧
    loadNppiccLibrary sampleDlEnvNone 11040 = Except.error nppiccLoadErrorMsg ∧
    nppIsSymbolAvailable sampleDlEnvA 11040 ⟨[]⟩ "nppiSomeSymbol" =
      Except.ok (false, ⟨[("nppiSomeSymbol", none)]⟩, 1) := by
  have hA := library_load_fallback_and_absent_symbol sampleDlEnvA 11040
  have hN := library_load_fallback_and_absent_symbol sampleDlEnvNone 11040
  exact ⟨hA.1 1 rfl, hA.2.2.2.2.1 rfl 2 rfl, hN.2.2.1 rfl rfl,
    hN.2.2.2.2.2.1 rfl rfl,
    hA.2.2.2.2.2.2 "nppiSomeSymbol" ⟨[]⟩ 1 2 (hA.1 1 rfl)
      (hA.2.2.2.2.1 rfl 2 rfl) rfl rfl rfl⟩

/-- C6: `NppLoadSymbol` looks the name up in the extension library (`libnppicc`)
first, falls back to the core library (`libnppc`) only when that lookup returned
NULL, and returns NULL when the symbol is in neither. -/
theorem resolve_secondary_then_primary (env : DlEnv) (cu : Nat) (name : String)
    (hc hi : Nat)
    (h1 : loadNppcLibrary env cu = Except.ok hc)
    (h2 : loadNppiccLibrary env cu = Except.ok hi) :
    (∀ a, env.dlsym hi name = some a →
      NppLoadSymbol env cu name = Except.ok (some a)) ∧
    (env.dlsym hi name = none →
      NppLoadSymbol env cu name = Except.ok (env.dlsym hc name)) ∧
    (env.dlsym hi name = none → env.dlsym hc name = none →
      NppLoadSymbol env cu name = Except.ok none) := by
  refine ⟨?_, ?_, ?_⟩
  · intro a ha
    simp [NppLoadSymbol, h1, h2, ha]
  · intro ha
    simp [NppLoadSymbol, h1, h2, ha]
  · intro ha hb
    simp [NppLoadSymbol, h1, h2, ha, hb]

/-- Witness for C6: a symbol present in both libraries resolves to the extension
library's address, a core-only symbol falls back to the core address, an absent
symbol yields NULL. -/
theorem resolve_secondary_then_primary_witness :
    NppLoadSymbol sampleDlEnvB 11040 "inBoth" = Except.ok (some 20) ∧
    NppLoadSymbol sampleDlEnvB 11040 "coreOnly" = Except.ok (some 11) ∧
    NppLoadSymbol sampleDlEnvB 11040 "absent" = Except.ok none := by
  refine ⟨(resolve_secondary_then_primary sampleDlEnvB 11040 "inBoth" 1 2
      rfl rfl).1 20 rfl, ?_, ?_⟩
  · have h := (resolve_secondary_then_primary sampleDlEnvB 11040 "coreOnly" 1 2
      rfl rfl).2.1 rfl
    exact h
  · exact (resolve_secondary_then_primary sampleDlEnvB 11040 "absent" 1 2
      rfl rfl).2.2 rfl rfl

/-- Shared helper: once the cache holds an entry for `name`, any number of
further calls for `name` return that entry's presence bit, leave the cache
unchanged and never run `NppLoadSymbol`. -/
theorem cachedRun_replicate (env : DlEnv) (cu : Nat) (c : SymbolCache)
    (name : String) (ptr : Option Nat)
    (hfind : symbolMapFind name c.symbol_map = some ptr) :
    ∀ n : Nat, isAvailableRun env cu c (List.replicate n name) =
      Except.ok (List.replicate n ptr.isSome, c, 0)
  | 0 => by simp [isAvailableRun]
  | n + 1 => by
    have ih := cachedRun_replicate env cu c name ptr hfind n
    simp [List.replicate_succ, isAvailableRun, nppIsSymbolAvailable, hfind, ih]

/-- C4: once a first `nppIsSymbolAvailable` call for a name has completed (with
boolean `b` and cache `c`), every later call for that name returns the same `b`,
leaves the cache at `c`, and runs the underlying `NppLoadSymbol` (hence `dlopen`
and `dlsym`) zero further times: the cached entry alone determines the answer. -/
theorem isAvailable_idempotent_after_first (env : DlEnv) (cu : Nat)
    (cache : SymbolCache) (name : String) (b : Bool) (c : SymbolCache) (k : Nat)
    (h : nppIsSymbolAvailable env cu cache name = Except.ok (b, c, k))
    (n : Nat) :
    isAvailableRun env cu c (List.replicate n name) =
      Except.ok (List.replicate n b, c, 0) := by
  have hfind : ∃ ptr, symbolMapFind name c.symbol_map = some ptr ∧
      ptr.isSome = b := by
    unfold nppIsSymbolAvailable at h
    cases hf : symbolMapFind name cache.symbol_map with
    | some ptr =>
      rw [hf] at h
      simp only [Except.ok.injEq, Prod.mk.injEq] at h
      obtain ⟨hb, hc, -⟩ := h
      exact ⟨ptr, by rw [← hc]; exact hf, hb⟩
    | none =>
      rw [hf] at h
      cases hr : NppLoadSymbol env cu name with
      | error e =>
        rw [hr] at h
        simp at h
      | ok ptr =>
        rw [hr] at h
        simp only [Except.ok.injEq, Prod.mk.injEq] at h
        obtain ⟨hb, hc, -⟩ := h
        refine ⟨ptr, ?_, hb⟩
        rw [← hc]
        simp [symbolMapFind]
  obtain ⟨ptr, hf, hb⟩ := hfind
  rw [← hb]
  exact cachedRun_replicate env cu c name ptr hf n

/-- Witness for C4: after the first lookup of "inBoth" has populated the cache,
three further calls return the same `true` with zero further resolutions. -/
theorem isAvailable_idempotent_after_first_witness :
    isAvailableRun sampleDlEnvB 11040 ⟨[("inBoth", some 20)]⟩
        (List.replicate 3 "inBoth") =
      Except.ok (List.replicate 3 true, ⟨[("inBoth", some 20)]⟩, 0) :=
  isAvailable_idempotent_after_first sampleDlEnvB 11040 ⟨[]⟩ "inBoth" true
    ⟨[("inBoth", some 20)]⟩ 1 rfl 3

/-- C5: N (≥ 1) calls for a name with no cache entry — the serialized order in
which N concurrent threads pass the mutex — run the underlying resolution
exactly once in total, and every call returns the same boolean (the presence bit
of the one resolved address). -/
theorem first_use_resolves_once (env : DlEnv) (cu : Nat) (cache : SymbolCache)
    (name : String) (ptr : Option Nat) (n : Nat)
    (hmiss : symbolMapFind name cache.symbol_map = none)
    (hres : NppLoadSymbol env cu name = Except.ok ptr)
    (hn : 1 ≤ n) :
    isAvailableRun env cu cache (List.replicate n name) =
      Except.ok (List.replicate n ptr.isSome,
        SymbolCache.mk ((name, ptr) :: cache.symbol_map), 1) := by
  obtain ⟨m, rfl⟩ : ∃ m, n = m + 1 := ⟨n - 1, by omega⟩
  have hfirst : nppIsSymbolAvailable env cu cache name =
      Except.ok (ptr.isSome, ⟨(name, ptr) :: cache.symbol_map⟩, 1) := by
    unfold nppIsSymbolAvailable
    rw [hmiss, hres]
  have hrest := cachedRun_replicate env cu ⟨(name, ptr) :: cache.symbol_map⟩
    name ptr (by simp [symbolMapFind]) m
  simp [List.replicate_succ, isAvailableRun, hfirst, hrest]

/-- Witness for C5: four calls for the uncached "coreOnly" resolve it once and
all return `true`. -/
theorem first_use_resolves_once_witness :
    isAvailableRun sampleDlEnvB 11040 ⟨[]⟩ (List.replicate 4 "coreOnly") =
      Except.ok (List.replicate 4 true, ⟨[("coreOnly", some 11)]⟩, 1) :=
  first_use_resolves_once sampleDlEnvB 11040 ⟨[]⟩ "coreOnly" (some 11) 4
    rfl rfl (by decide)
